import Mathlib

/-!
Shallow embedding of `src/core/src/avm1/globals/movie_clip.rs` (the AVM1
MovieClip prototype of the ruffle runtime) and proofs of the spec claims
about it.

Conventions of the embedding:
* Machine integers are modelled as `Int` with explicit wrapping
  (`wrapI32`, casts) where the source uses `wrapping_add` / `as` casts.
* `f64` script numbers are modelled as `ℚ`: every finite double is a
  rational, and the operations the embedded code performs on them
  (comparisons, clamping with `min`/`max`, truncation, `fract`) are exact
  on rationals; floating-point rounding of intermediate arithmetic is not
  modelled.
* Fallible operations return `Option` (`none` = propagated error) and the
  script-facing operations return an `Outcome` which also has a `panic`
  constructor for Rust panics (out-of-bounds slicing).
* External collaborators (value coercion, target resolution, the library,
  the display-list primitives that live outside `src/`) are either oracle
  fields of an `Env` record or definitions marked `Modelled from the
  spec:`.
-/

namespace Ruffle

/-! ## Numeric primitives -/

/-- Two's-complement wrap of an integer into the `i32` range, as performed
by Rust `wrapping_add` / `wrapping_sub` on `i32`. -/
def wrapI32 (n : Int) : Int :=
  (n + 2147483648) % 4294967296 - 2147483648

/-- Truncation of a rational toward zero, as `f64::trunc`. -/
def ratTrunc (q : ℚ) : Int :=
  if 0 ≤ q.num then q.num / (q.den : Int) else -((-q.num) / (q.den : Int))

/-- Fractional part of a rational, as `f64::fract` (`self - self.trunc()`). -/
def ratFract (q : ℚ) : ℚ :=
  q - (ratTrunc q : ℚ)

/-- `crate::avm1::value::f64_to_wrapping_i32`.
Modelled from the spec: the wrapping number-to-`i32` conversion of the
value module (not under `src/`); it truncates toward zero and wraps as
two's-complement 32-bit ("convert with wrapping arithmetic", spec 4.4). -/
def f64_to_wrapping_i32 (q : ℚ) : Int :=
  wrapI32 (ratTrunc q)

/-- `crate::avm1::value::f64_to_wrapping_u32` used by `coerce_to_u32`.
Modelled from the spec: the wrapping number-to-`u32` conversion (not under
`src/`); truncates toward zero and wraps modulo `2^32`. -/
def f64_to_wrapping_u32 (q : ℚ) : Nat :=
  ((ratTrunc q) % 4294967296).toNat

/-- Rust `as u8` on a float: saturating truncation into `[0, 255]`. -/
def f64_as_u8 (q : ℚ) : Nat :=
  if q ≤ 0 then 0 else if 255 ≤ q then 255 else (ratTrunc q).toNat

/-- Rust `as i32` on a float: saturating truncation into the `i32` range. -/
def f64_as_i32 (q : ℚ) : Int :=
  if q ≤ -2147483648 then -2147483648
  else if 2147483647 ≤ q then 2147483647
  else ratTrunc q

/-- Rust `i32::saturating_add`. -/
def satAddI32 (a b : Int) : Int :=
  if a + b > 2147483647 then 2147483647
  else if a + b < -2147483648 then -2147483648
  else a + b

/-- Rust `as u16` on an `i32`: the low 16 bits of the two's-complement
representation. -/
def i32_as_u16 (n : Int) : Nat :=
  (n % 65536).toNat

/-- Rust `u16::wrapping_add`. -/
def wrapU16 (n : Nat) : Nat :=
  n % 65536

/-- `swf::Twips::from_pixels`: multiply by 20 twips per pixel and truncate
to `i32` ("converted to/from floating-point pixel values ... rounding via
truncation on the pixel→unit direction", spec 4.2). -/
def twipsFromPixels (q : ℚ) : Int :=
  f64_as_i32 (q * 20)

/-! ## Depth address space constants

`AVM_DEPTH_BIAS` and `AVM_MAX_DEPTH` are imported by `movie_clip.rs` from
`avm1/globals/display_object.rs`, which is not under `src/`. -/

/-- Modelled from the spec: `AVM_DEPTH_BIAS` from `display_object.rs` (only
its import is shown) — the fixed offset separating dynamically created
depths from author-placed ones (spec 4.1); the runtime value is 16384. -/
def AVM_DEPTH_BIAS : Int := 16384

/-- Modelled from the spec: `AVM_MAX_DEPTH` from `display_object.rs` (only
its import is shown) — the legacy constant bounding the dynamic internal
depth range; the code comment at its use sites gives `2^31 - 16777220 =
2130706428`. -/
def AVM_MAX_DEPTH : Int := 2130706428

/-- The largest script-visible depth: `AVM_MAX_DEPTH` unbiased. -/
def MAX_DEPTH : Int := AVM_MAX_DEPTH - AVM_DEPTH_BIAS

/-- The biased-depth computation of `attach_movie` /
`create_empty_movie_clip` / `duplicate_movie_clip` (lines 450-452 etc.):
`script_depth.wrapping_add(AVM_DEPTH_BIAS)`. -/
def to_internal (d : Int) : Int :=
  wrapI32 (d + AVM_DEPTH_BIAS)

/-- The inverse conversion, internal to script depth, by wrapping
subtraction of the bias (`get_next_highest_depth`, lines 685-691, performs
`wrapping_sub(AVM_DEPTH_BIAS - 1)` — the wrapping subtraction of the bias
shifted by one to yield the next free script depth). -/
def to_script (i : Int) : Int :=
  wrapI32 (i - AVM_DEPTH_BIAS)

/-! ## Script values and drawing data -/

/-- An AVM1 value as far as this module observes it. Object identity is a
numeric handle resolved through the `Env` oracles. -/
inductive Val where
  | undefined
  | null
  | boolean (b : Bool)
  | num (q : ℚ)
  | str (s : String)
  | obj (id : Nat)
deriving DecidableEq

/-- `swf::Color` restricted to what this module builds. -/
structure Color where
  rgb : Nat
  alpha : Nat
deriving DecidableEq

/-- `swf::Color::from_rgb(rgb: u32, alpha: u8)`: keeps the low 24 bits of
the rgb word. -/
def Color.fromRgb (rgb : Nat) (alpha : Nat) : Color :=
  ⟨rgb % 16777216, alpha⟩

/-- `swf::GradientRecord` (`ratio` field renamed `ratioB`). -/
structure GradientRecord where
  ratioB : Nat
  color : Color
deriving DecidableEq

/-- `swf::GradientSpread`. -/
inductive GradientSpread where
  | pad
  | reflect
  | repeated
deriving DecidableEq

/-- `swf::GradientInterpolation`. -/
inductive GradientInterpolation where
  | rgbMode
  | linearRGB
deriving DecidableEq

/-- `swf::Gradient`; the gradient matrix (built by the external
`gradient_object_to_matrix`) is an abstract token. -/
structure Gradient where
  matrix : Int
  spread : GradientSpread
  interp : GradientInterpolation
  records : List GradientRecord
deriving DecidableEq

/-- `swf::FillStyle` restricted to what this module builds. -/
inductive FillStyle where
  | color (c : Color)
  | linearGradient (g : Gradient)
  | radialGradient (g : Gradient)
  | focalGradient (g : Gradient) (focalPoint : ℚ)
deriving DecidableEq

/-- `swf::LineCapStyle` (`None` renamed `noneCap`). -/
inductive LineCapStyle where
  | round
  | noneCap
  | square
deriving DecidableEq

/-- `swf::LineJoinStyle`; the miter limit is an `f32`, modelled as `ℚ`. -/
inductive LineJoinStyle where
  | round
  | bevel
  | miter (limit : ℚ)
deriving DecidableEq

/-- `swf::LineStyle` restricted to the fields this module sets. -/
structure LineStyleRec where
  width : Int
  color : Color
  startCap : LineCapStyle
  endCap : LineCapStyle
  joinStyle : LineJoinStyle
  fillOfLine : Option FillStyle
  allowScaleX : Bool
  allowScaleY : Bool
  isPixelHinted : Bool
  allowClose : Bool
deriving DecidableEq

/-! ## Display tree state -/

/-- The script-observable state of one display node (spec section 3). The
`parentMc` field is the parent resolved as a movie clip, i.e. the value of
`node.parent().and_then(|o| o.as_movie_clip())` used throughout the
source; `matrix` and `colorXform` are abstract tokens; `props` are the
ScriptObject properties; `contentId` is `node.id()`. -/
structure NodeData where
  depth : Int
  parentMc : Option Nat
  matrix : Int
  colorXform : Int
  name : String
  props : List (String × Val)
  fillStyle : Option FillStyle
  lineStyle : Option LineStyleRec
  cursor : Nat
  playing : Bool
  labels : List (String × Nat)
  totalFrames : Nat
  contentId : Nat
deriving DecidableEq

/-- The display tree: nodes addressed by stable handles, plus the next
fresh handle for instantiation. -/
structure World where
  nodes : Nat → NodeData
  nextId : Nat

/-- Replace the data of one node. -/
def updateNode (w : World) (n : Nat) (f : NodeData → NodeData) : World :=
  { w with nodes := fun i => if i = n then f (w.nodes i) else w.nodes i }

/-! ## External collaborators (oracles)

Value coercion, target resolution, the content library, `as_bool`, the
gradient-matrix builder and ScriptObject array access are external
collaborators (spec section 6); they are fields of an environment record
so that the theorems quantify over their behaviour. `none` from a
coercion oracle models a propagated coercion error. -/

structure Env where
  toF64 : Val → Option ℚ
  toStr : Val → Option String
  toObj : Val → Nat
  asBool : Val → Bool
  arrayOf : Nat → List Val
  objProps : Nat → List (String × Val)
  asDisplayObject : Val → Option Nat
  isMovieClip : Nat → Bool
  resolveTarget : Val → Option (Option Nat)
  gradientMatrix : Nat → Option Int
  exportTemplate : String → Option NodeData
  idTemplate : Nat → Option NodeData

/-- `Value::coerce_to_i32`.
Modelled from the spec: the external coercion (spec section 6) is
`f64_to_wrapping_i32` applied to the `f64` coercion. -/
def coerceToI32 (env : Env) (v : Val) : Option Int :=
  (env.toF64 v).map f64_to_wrapping_i32

/-- `Value::coerce_to_u32`.
Modelled from the spec: the external coercion (spec section 6) is
`f64_to_wrapping_u32` applied to the `f64` coercion. -/
def coerceToU32 (env : Env) (v : Val) : Option Nat :=
  (env.toF64 v).map f64_to_wrapping_u32

/-! ## Display-list primitives (outside `src/`)

`add_child_from_avm`, `remove_child_from_avm` and `swap_child_to_depth`
are methods of the display-object module, which is not under `src/`; they
are modelled from spec section 4.5. -/

/-- Modelled from the spec: `add_child_from_avm` — insert a child into the
parent at the given internal depth, resolving a depth collision by
displacement-by-overwrite (the child previously at that depth is
detached), spec 4.5 insertion ordering invariant. -/
def addChildFromAvm (w : World) (p c : Nat) (d : Int) : World :=
  { w with nodes := fun i =>
      if i = c then { w.nodes c with parentMc := some p, depth := d }
      else if (w.nodes i).parentMc = some p ∧ (w.nodes i).depth = d then
        { w.nodes i with parentMc := none }
      else w.nodes i }

/-- Modelled from the spec: `remove_child_from_avm` — removal detaches the
node from the parent child collection (spec 4.5). -/
def removeChildFromAvm (w : World) (c : Nat) : World :=
  updateNode w c (fun nd => { nd with parentMc := none })

/-- Modelled from the spec: `swap_child_to_depth` — move the child to the
target depth; the sibling previously at that depth takes the child old
depth (swapping exchanges positions in the parent depth-ordered child
collection and does not touch unrelated siblings, spec 4.5). -/
def swapChildToDepth (w : World) (p c : Nat) (d : Int) : World :=
  { w with nodes := fun i =>
      if i = c then { w.nodes c with depth := d }
      else if (w.nodes i).parentMc = some p ∧ (w.nodes i).depth = d then
        { w.nodes i with depth := (w.nodes c).depth }
      else w.nodes i }

/-- Modelled from the spec: `MovieClip::set_fill_style` (drawing path
builder, spec 4.3). -/
def setFillStyle (w : World) (mc : Nat) (s : Option FillStyle) : World :=
  updateNode w mc (fun nd => { nd with fillStyle := s })

/-- Modelled from the spec: `MovieClip::set_line_style` (drawing path
builder, spec 4.3). -/
def setLineStyle (w : World) (mc : Nat) (s : Option LineStyleRec) : World :=
  updateNode w mc (fun nd => { nd with lineStyle := s })

/-- Modelled from the spec: `set_matrix` on a display object. -/
def setMatrix (w : World) (n : Nat) (m : Int) : World :=
  updateNode w n (fun nd => { nd with matrix := m })

/-- Modelled from the spec: `set_color_transform` on a display object. -/
def setColorXform (w : World) (n : Nat) (ct : Int) : World :=
  updateNode w n (fun nd => { nd with colorXform := ct })

/-- Modelled from the spec: `set_name` on a display object. -/
def setName (w : World) (n : Nat) (s : String) : World :=
  updateNode w n (fun nd => { nd with name := s })

/-- Allocate a fresh node from a template at the next free handle. -/
def allocNode (w : World) (tmpl : NodeData) : World :=
  { nodes := fun i => if i = w.nextId then tmpl else w.nodes i
    nextId := w.nextId + 1 }

/-- Modelled from the spec: the post-instantiation hook (spec 4.5 / 6) —
applies `init_props` onto the new node if provided. -/
def postInstantiation (env : Env) (w : World) (n : Nat)
    (initObj : Option Nat) : World :=
  match initObj with
  | none => w
  | some o => updateNode w n (fun nd => { nd with props := nd.props ++ env.objProps o })

/-- Modelled from the spec: the single-frame-advance hook (spec 4.5 / 6) —
advance the node through one frame tick. -/
def runFrame (w : World) (n : Nat) : World :=
  updateNode w n (fun nd => { nd with cursor := min (nd.cursor + 1) nd.totalFrames })

/-- Modelled from the spec: `MovieClip::goto_frame` of the timeline
controller (spec 4.4) — moves the cursor and sets the play state per
`stop_after`. -/
def gotoFrameImpl (w : World) (mc : Nat) (frame : Nat) (stop : Bool) : World :=
  updateNode w mc (fun nd => { nd with cursor := frame, playing := !stop })

/-- Modelled from the spec: `MovieClip::frame_label_to_number` — resolve a
frame label via the node label table (spec 4.4). -/
def frame_label_to_number (nd : NodeData) (label : String) : Option Nat :=
  (nd.labels.find? (fun p => p.1 = label)).map (fun p => p.2)

/-! ## Operation outcomes -/

/-- Result of a script-facing operation: a returned value with the
resulting world, a propagated error (`Err` with `?`), or a Rust panic. -/
inductive Outcome where
  | ok (v : Val) (w : World)
  | err (w : World)
  | panic

/-! ## The embedded operations of `movie_clip.rs` -/

/-- The `with_movie_clip!` dispatch wrapper (lines 30-49): downcast the
receiver once; if it is not a display object carrying a movie clip,
return `Undefined` without running the operation body. -/
def with_movie_clip (env : Env) (body : Nat → World → Outcome)
    (this : Val) (w : World) : Outcome :=
  match env.asDisplayObject this with
  | some dobj => if env.isMovieClip dobj then body dobj w else .ok .undefined w
  | none => .ok .undefined w

/-- `attach_movie` (lines 440-492). The source destructures
`&args[0..3]`, which panics when fewer than three arguments are given
(the `_` fallback arm of that match is unreachable because a slice of
length three always matches the three-element pattern). -/
def attach_movie (env : Env) (w : World) (mc : Nat) (args : List Val) : Outcome :=
  if args.length < 3 then .panic
  else
    match env.toStr (args.getD 0 .undefined) with
    | none => .err w
    | some exportName =>
      match env.toStr (args.getD 1 .undefined) with
      | none => .err w
      | some newInstanceName =>
        match coerceToI32 env (args.getD 2 .undefined) with
        | none => .err w
        | some d0 =>
          let depth := wrapI32 (d0 + AVM_DEPTH_BIAS)
          let initObject := args.get? 3
          if depth < 0 ∨ depth > AVM_MAX_DEPTH then .ok .undefined w
          else
            match env.exportTemplate exportName with
            | none => .ok .undefined w
            | some tmpl =>
              let newId := w.nextId
              let w1 := allocNode w { tmpl with name := newInstanceName }
              let w2 := addChildFromAvm w1 mc newId depth
              let initObjId :=
                match initObject with
                | some (Val.obj o) => some o
                | _ => none
              let w3 := postInstantiation env w2 newId initObjId
              let w4 := runFrame w3 newId
              .ok (.obj newId) w4

/-- `create_empty_movie_clip` (lines 494-527). The source destructures
`&args[0..2]`, which panics when fewer than two arguments are given.
There is no depth-range check on this path. -/
def create_empty_movie_clip (env : Env) (w : World) (mc : Nat)
    (emptyClip : NodeData) (args : List Val) : Outcome :=
  if args.length < 2 then .panic
  else
    match env.toStr (args.getD 0 .undefined) with
    | none => .err w
    | some newInstanceName =>
      match coerceToI32 env (args.getD 1 .undefined) with
      | none => .err w
      | some d0 =>
        let depth := wrapI32 (d0 + AVM_DEPTH_BIAS)
        let newId := w.nextId
        let w1 := allocNode w { emptyClip with name := newInstanceName }
        let w2 := addChildFromAvm w1 mc newId depth
        let w3 := postInstantiation env w2 newId none
        let w4 := runFrame w3 newId
        .ok (.obj newId) w4

/-- The success tail of `duplicate_movie_clip_with_bias` (lines 628-651):
instantiate a fresh node from the template with the new name, attach it
to the parent at the computed depth, copy the source matrix and colour
transform onto it, apply the init object and advance it one frame. -/
def dupResult (env : Env) (w : World) (mc parent : Nat) (tmpl : NodeData)
    (nm : String) (depth : Int) (initObjId : Option Nat) : World :=
  let newId := w.nextId
  let w1 := allocNode w { tmpl with name := nm }
  let w2 := addChildFromAvm w1 parent newId depth
  let w3 := setMatrix w2 newId ((w2.nodes mc).matrix)
  let w4 := setColorXform w3 newId ((w3.nodes mc).colorXform)
  let w5 := postInstantiation env w4 newId initObjId
  runFrame w5 newId

/-- `duplicate_movie_clip_with_bias` (lines 594-656). The source
destructures `&args[0..2]`, which panics when fewer than two arguments
are given. -/
def duplicate_movie_clip_with_bias (env : Env) (w : World) (mc : Nat)
    (args : List Val) (depthBias : Int) : Outcome :=
  if args.length < 2 then .panic
  else
    match env.toStr (args.getD 0 .undefined) with
    | none => .err w
    | some newInstanceName =>
      match coerceToI32 env (args.getD 1 .undefined) with
      | none => .err w
      | some d0 =>
        let depth := wrapI32 (d0 + depthBias)
        let initObject := args.get? 2
        match (w.nodes mc).parentMc with
        | none => .ok .undefined w
        | some parent =>
          if depth < 0 ∨ depth > AVM_MAX_DEPTH then .ok .undefined w
          else
            match env.idTemplate ((w.nodes mc).contentId) with
            | none => .ok .undefined w
            | some tmpl =>
              .ok (.obj w.nextId)
                (dupResult env w mc parent tmpl newInstanceName depth
                  (initObject.map env.toObj))

/-- `remove_movie_clip_with_bias` (lines 798-819). -/
def remove_movie_clip_with_bias (w : World) (mc : Nat) (depthBias : Int) : Outcome :=
  let depth := wrapI32 ((w.nodes mc).depth + depthBias)
  if AVM_DEPTH_BIAS ≤ depth ∧ depth < 2130706416 then
    match (w.nodes mc).parentMc with
    | none => .ok .undefined w
    | some _ => .ok .undefined (removeChildFromAvm w mc)
  else .ok .undefined w

/-- The label branch of `goto_frame` (lines 746-753): coerce the argument
to a string and resolve it against the label table; an unresolved label
is a no-op. -/
def gotoLabelPath (env : Env) (w : World) (mc : Nat) (stop : Bool)
    (sceneOffset : Nat) (v : Val) : Outcome :=
  match env.toStr v with
  | none => .err w
  | some frameLabel =>
    match frame_label_to_number (w.nodes mc) frameLabel with
    | some f => .ok .undefined (gotoFrameImpl w mc (wrapU16 (f + sceneOffset)) stop)
    | none => .ok .undefined w

/-- `goto_frame` (lines 716-756). A `Number` argument is treated as a
1-based frame only when its fractional part is zero (the match guard
`n.fract() == 0.0`); otherwise the argument — number or not — falls
through to the label branch. -/
def goto_frame (env : Env) (w : World) (mc : Nat) (args : List Val)
    (stop : Bool) (sceneOffset : Nat) : Outcome :=
  match args.getD 0 .undefined with
  | .num n =>
    if ratFract n = 0 then
      let frame0 := f64_to_wrapping_i32 n
      let frame1 := wrapI32 (frame0 - 1)
      let frame2 := wrapI32 (frame1 + sceneOffset)
      if 0 ≤ frame2 then
        .ok .undefined (gotoFrameImpl w mc (i32_as_u16 (satAddI32 frame2 1)) stop)
      else .ok .undefined w
    else gotoLabelPath env w mc stop sceneOffset (.num n)
  | v => gotoLabelPath env w mc stop sceneOffset v

/-- The depth-resolution step of `swap_depths` (lines 866-881): a number
argument is converted with wrapping arithmetic and biased; any other
argument is resolved as a target node, whose depth is taken only when it
has the same parent as the receiver. The outer `none` is a propagated
resolution error; the inner `none` means no depth was resolved (log-only
warning). -/
def swapDepthArg (env : Env) (w : World) (parent : Nat) (arg : Val) :
    Option (Option Int) :=
  match arg with
  | .num n => some (some (wrapI32 (f64_to_wrapping_i32 n + AVM_DEPTH_BIAS)))
  | _ =>
    match env.resolveTarget arg with
    | none => none
    | some (some target) =>
      match (w.nodes target).parentMc with
      | some targetParent =>
        if targetParent = parent then some (some ((w.nodes target).depth))
        else some none
      | none => some none
    | some none => some none

/-- `swap_depths` (lines 852-895). Only the resolved target depth is
range-checked against `[0, AVM_MAX_DEPTH]`; the receiver current depth is
only compared for inequality. -/
def swap_depths (env : Env) (w : World) (mc : Nat) (args : List Val) : Outcome :=
  match (w.nodes mc).parentMc with
  | none => .ok .undefined w
  | some parent =>
    match swapDepthArg env w parent (args.getD 0 .undefined) with
    | none => .err w
    | some none => .ok .undefined w
    | some (some d) =>
      if d < 0 ∨ d > AVM_MAX_DEPTH then .ok .undefined w
      else if d ≠ (w.nodes mc).depth then
        .ok .undefined (swapChildToDepth w parent mc d)
      else .ok .undefined w

/-- The tail of `line_style` shared by all colour branches: pixel
hinting, scale flags, cap style and join style (lines 174-233). The
string-enum arguments swallow coercion failures via `.ok()`; only the
miter-limit coercion propagates an error. -/
def lineStyleRest (env : Env) (w : World) (mc : Nat) (args : List Val)
    (width : Int) (color : Color) : Outcome :=
  let isPixelHinted := (args.get? 3).elim false env.asBool
  let scales :=
    match (args.get? 4).bind env.toStr with
    | some "normal" => (true, true)
    | some "vertical" => (true, false)
    | some "horizontal" => (false, true)
    | _ => (false, false)
  let capStyle :=
    match (args.get? 5).bind env.toStr with
    | some "square" => LineCapStyle.square
    | some "none" => LineCapStyle.noneCap
    | _ => LineCapStyle.round
  let finish (j : LineJoinStyle) : Outcome :=
    .ok .undefined (setLineStyle w mc (some
      { width := width
        color := color
        startCap := capStyle
        endCap := capStyle
        joinStyle := j
        fillOfLine := none
        allowScaleX := scales.1
        allowScaleY := scales.2
        isPixelHinted := isPixelHinted
        allowClose := false }))
  match (args.get? 6).bind env.toStr with
  | some "miter" =>
    match args.get? 7 with
    | some limitV =>
      match env.toF64 limitV with
      | none => .err w
      | some l => finish (.miter (min (max l 0) 255))
    | none => finish (.miter 3)
  | some "bevel" => finish .bevel
  | _ => finish .round

/-- `line_style` (lines 145-235). -/
def line_style (env : Env) (w : World) (mc : Nat) (args : List Val) : Outcome :=
  match args.get? 0 with
  | none => .ok .undefined (setLineStyle w mc none)
  | some widthV =>
    match env.toF64 widthV with
    | none => .err w
    | some wq =>
      let width := twipsFromPixels (max (min wq 255) 0)
      match args.get? 1 with
      | none => lineStyleRest env w mc args width (Color.fromRgb 0 255)
      | some rgbV =>
        match coerceToU32 env rgbV with
        | none => .err w
        | some rgb =>
          match
            (match args.get? 2 with
             | some alphaV => (env.toF64 alphaV).map (fun a => max (min a 100) 0)
             | none => some 100) with
          | none => .err w
          | some pct =>
            lineStyleRest env w mc args width
              (Color.fromRgb rgb (f64_as_u8 (pct / 100 * 255)))

/-- `begin_fill` (lines 237-263). -/
def begin_fill (env : Env) (w : World) (mc : Nat) (args : List Val) : Outcome :=
  match args.get? 0 with
  | none => .ok .undefined (setFillStyle w mc none)
  | some rgbV =>
    match coerceToU32 env rgbV with
    | none => .err w
    | some rgb =>
      match
        (match args.get? 1 with
         | some alphaV => (env.toF64 alphaV).map (fun a => max (min a 100) 0)
         | none => some 100) with
      | none => .err w
      | some pct =>
        .ok .undefined (setFillStyle w mc (some
          (.color (Color.fromRgb rgb (f64_as_u8 (pct / 100 * 255))))))

/-- The record-construction loop of `begin_gradient_fill` (lines
289-304): per element, the ratio is clamped to `[0, 255]`, the colour is
coerced as `u32`, the alpha is clamped to `[0, 100]` and scaled to a
byte. -/
def buildRecords (env : Env) : List Val → List Val → List Val →
    Option (List GradientRecord)
  | c :: cs, a :: aRest, r :: rs => do
    let rq ← env.toF64 r
    let ratioClamped := max (min rq 255) 0
    let rgb ← coerceToU32 env c
    let aq ← env.toF64 a
    let alphaClamped := max (min aq 100) 0
    let rest ← buildRecords env cs aRest rs
    pure (⟨f64_as_u8 ratioClamped,
           Color.fromRgb rgb (f64_as_u8 (alphaClamped / 100 * 255))⟩ :: rest)
  | _, _, _ => some []

/-- `begin_gradient_fill` (lines 265-352). With all five required
arguments present, unequal array lengths log a warning and return
`Undefined` with no state change; with any argument missing, the fill
style is cleared. -/
def begin_gradient_fill (env : Env) (w : World) (mc : Nat) (args : List Val) : Outcome :=
  match args.get? 0, args.get? 1, args.get? 2, args.get? 3, args.get? 4 with
  | some methodV, some colorsV, some alphasV, some ratiosV, some matrixV =>
    match env.toStr methodV with
    | none => .err w
    | some method =>
      let colors := env.arrayOf (env.toObj colorsV)
      let alphas := env.arrayOf (env.toObj alphasV)
      let ratios := env.arrayOf (env.toObj ratiosV)
      let matrixObj := env.toObj matrixV
      if colors.length ≠ alphas.length ∨ colors.length ≠ ratios.length then
        .ok .undefined w
      else
        match buildRecords env colors alphas ratios with
        | none => .err w
        | some records =>
          match env.gradientMatrix matrixObj with
          | none => .err w
          | some m =>
            let spread :=
              match (args.get? 5).bind env.toStr with
              | some "reflect" => GradientSpread.reflect
              | some "repeat" => GradientSpread.repeated
              | _ => GradientSpread.pad
            let interp :=
              match (args.get? 6).bind env.toStr with
              | some "linearRGB" => GradientInterpolation.linearRGB
              | _ => GradientInterpolation.rgbMode
            let gradient : Gradient := ⟨m, spread, interp, records⟩
            if method = "linear" then
              .ok .undefined (setFillStyle w mc (some (.linearGradient gradient)))
            else if method = "radial" then
              match args.get? 7 with
              | some focalV =>
                match env.toF64 focalV with
                | none => .err w
                | some f =>
                  .ok .undefined (setFillStyle w mc (some (.focalGradient gradient f)))
              | none =>
                .ok .undefined (setFillStyle w mc (some (.radialGradient gradient)))
            else .ok .undefined w
  | _, _, _, _, _ => .ok .undefined (setFillStyle w mc none)

/-! ## Concrete test data for witnesses and counterexamples -/

/-- A default node: detached, author depth 0, empty drawing state, a
ten-frame timeline with the cursor on frame 1. -/
def testNode : NodeData :=
  { depth := 0
    parentMc := none
    matrix := 0
    colorXform := 0
    name := ""
    props := []
    fillStyle := none
    lineStyle := none
    cursor := 1
    playing := true
    labels := []
    totalFrames := 10
    contentId := 0 }

/-- A world of default nodes. -/
def testWorld : World :=
  { nodes := fun _ => testNode, nextId := 5 }

/-- A simple coercion environment: numbers coerce to themselves, strings
to themselves, everything else fails; no display objects, no library. -/
def numEnv : Env :=
  { toF64 := fun v => match v with | .num q => some q | _ => none
    toStr := fun v => match v with | .str s => some s | _ => none
    toObj := fun v => match v with | .obj i => i | _ => 0
    asBool := fun v => match v with | .boolean b => b | _ => false
    arrayOf := fun _ => []
    objProps := fun _ => []
    asDisplayObject := fun _ => none
    isMovieClip := fun _ => false
    resolveTarget := fun _ => some none
    gradientMatrix := fun _ => some 0
    exportTemplate := fun _ => none
    idTemplate := fun _ => none }

/-! ## Claim theorems -/

/-- C3: for every script depth `d` in `[0, MAX_DEPTH]`, converting to an
internal depth by wrapping signed 32-bit addition of the depth bias and
back by wrapping subtraction yields `d` again, the wrap-around behaving
as two's-complement wrapping rather than faulting. -/
theorem c3_depth_round_trip (d : Int) (h0 : 0 ≤ d) (h1 : d ≤ MAX_DEPTH) :
    to_script (to_internal d) = d := by
  unfold MAX_DEPTH AVM_MAX_DEPTH AVM_DEPTH_BIAS at h1
  unfold to_script to_internal wrapI32 AVM_DEPTH_BIAS
  omega

theorem c3_depth_round_trip_witness :
    (0 : Int) ≤ 5 ∧ (5 : Int) ≤ MAX_DEPTH ∧ to_script (to_internal 5) = 5 :=
  ⟨by decide, by decide, c3_depth_round_trip 5 (by decide) (by decide)⟩

/-- C8 (code bug): calling `attach_movie`, `create_empty_movie_clip` or
`duplicate_movie_clip_with_bias` with fewer than the required number of
arguments evaluates the out-of-bounds slice `&args[0..3]` (resp.
`&args[0..2]`) and panics; the fallback match arm that would log a
warning and return undefined is unreachable. -/
theorem c8_short_args_panic :
    attach_movie numEnv testWorld 0 [] = .panic ∧
    attach_movie numEnv testWorld 0 [.str "export", .str "name"] = .panic ∧
    create_empty_movie_clip numEnv testWorld 0 testNode [.str "name"] = .panic ∧
    duplicate_movie_clip_with_bias numEnv testWorld 0 [.str "name"] AVM_DEPTH_BIAS
      = .panic :=
  ⟨rfl, rfl, rfl, rfl⟩

/-- C10: every MovieClip prototype method invoked with a receiver that is
not a display object, or whose display object is not a movie clip,
returns undefined and performs no state change — the dispatch wrapper
short-circuits before any operation body runs. -/
theorem c10_with_movie_clip_guard (env : Env) (body : Nat → World → Outcome)
    (this : Val) (w : World)
    (h : env.asDisplayObject this = none ∨
         ∃ d, env.asDisplayObject this = some d ∧ env.isMovieClip d = false) :
    with_movie_clip env body this w = .ok .undefined w := by
  rcases h with h | ⟨d, hd, hmc⟩
  · simp [with_movie_clip, h]
  · simp [with_movie_clip, hd, hmc]

theorem c10_with_movie_clip_guard_witness :
    numEnv.asDisplayObject (Val.obj 0) = none ∧
    with_movie_clip numEnv (fun _ _ => Outcome.panic) (Val.obj 0) testWorld
      = .ok .undefined testWorld :=
  ⟨rfl,
   c10_with_movie_clip_guard numEnv (fun _ _ => Outcome.panic) (Val.obj 0) testWorld
     (Or.inl rfl)⟩

/-- C1: every `attach_movie` call whose biased depth —
`coerce_to_i32(script_depth)` with wrapping addition of the depth bias —
is negative or greater than the maximum biased depth performs no tree
mutation and returns undefined, never a thrown error. -/
theorem c1_attach_out_of_range (env : Env) (w : World) (mc : Nat)
    (args : List Val) (eName iName : String) (d0 : Int)
    (hlen : 3 ≤ args.length)
    (h0 : env.toStr (args.getD 0 .undefined) = some eName)
    (h1 : env.toStr (args.getD 1 .undefined) = some iName)
    (h2 : coerceToI32 env (args.getD 2 .undefined) = some d0)
    (hd : wrapI32 (d0 + AVM_DEPTH_BIAS) < 0 ∨
          wrapI32 (d0 + AVM_DEPTH_BIAS) > AVM_MAX_DEPTH) :
    attach_movie env w mc args = .ok .undefined w := by
  unfold attach_movie
  rw [if_neg (by omega)]
  rw [h0, h1, h2]
  simp only []
  rw [if_pos hd]

theorem c1_attach_out_of_range_witness :
    3 ≤ ([Val.str "e", Val.str "n", Val.num (-20000)] : List Val).length ∧
    coerceToI32 numEnv (Val.num (-20000)) = some (-20000) ∧
    wrapI32 ((-20000) + AVM_DEPTH_BIAS) < 0 ∧
    attach_movie numEnv testWorld 0 [Val.str "e", Val.str "n", Val.num (-20000)]
      = .ok .undefined testWorld :=
  ⟨by decide, by decide, by decide,
   c1_attach_out_of_range numEnv testWorld 0
     [Val.str "e", Val.str "n", Val.num (-20000)] "e" "n" (-20000)
     (by decide) rfl rfl (by decide) (Or.inl (by decide))⟩

/-- After detaching, the node keeps all its data except the parent link. -/
theorem removeChildFromAvm_nodes (w : World) (mc i : Nat) :
    (removeChildFromAvm w mc).nodes i =
      if i = mc then { w.nodes mc with parentMc := none } else w.nodes i := by
  by_cases h : i = mc <;> simp [removeChildFromAvm, updateNode, h]

/-- C2: `removeMovieClip` detaches the node from its parent iff the node
depth wrapping-added to the depth bias lies in
`[AVM_DEPTH_BIAS, 2130706416)` and the node has a parent; otherwise it is
a no-op returning undefined; and a second call on the same node leaves
the tree unchanged. -/
theorem c2_remove_movie_clip (w : World) (mc : Nat) (b : Int) :
    (∀ p, (w.nodes mc).parentMc = some p →
       AVM_DEPTH_BIAS ≤ wrapI32 ((w.nodes mc).depth + b) →
       wrapI32 ((w.nodes mc).depth + b) < 2130706416 →
       remove_movie_clip_with_bias w mc b
         = .ok .undefined (removeChildFromAvm w mc) ∧
       ((removeChildFromAvm w mc).nodes mc).parentMc = none ∧
       (∀ i, i ≠ mc → (removeChildFromAvm w mc).nodes i = w.nodes i)) ∧
    ((w.nodes mc).parentMc = none ∨
       ¬(AVM_DEPTH_BIAS ≤ wrapI32 ((w.nodes mc).depth + b) ∧
         wrapI32 ((w.nodes mc).depth + b) < 2130706416) →
       remove_movie_clip_with_bias w mc b = .ok .undefined w) ∧
    (∀ w1, remove_movie_clip_with_bias w mc b = .ok .undefined w1 →
       remove_movie_clip_with_bias w1 mc b = .ok .undefined w1) := by
  refine ⟨?_, ?_, ?_⟩
  · intro p hp hlo hhi
    refine ⟨?_, ?_, ?_⟩
    · unfold remove_movie_clip_with_bias
      rw [if_pos ⟨hlo, hhi⟩, hp]
    · rw [removeChildFromAvm_nodes]
      simp
    · intro i hi
      rw [removeChildFromAvm_nodes, if_neg hi]
  · rintro (hp | hrange)
    · unfold remove_movie_clip_with_bias
      by_cases hr : AVM_DEPTH_BIAS ≤ wrapI32 ((w.nodes mc).depth + b) ∧
          wrapI32 ((w.nodes mc).depth + b) < 2130706416
      · rw [if_pos hr, hp]
      · rw [if_neg hr]
    · unfold remove_movie_clip_with_bias
      rw [if_neg hrange]
  · intro w1 h1
    by_cases hr : AVM_DEPTH_BIAS ≤ wrapI32 ((w.nodes mc).depth + b) ∧
        wrapI32 ((w.nodes mc).depth + b) < 2130706416
    · rcases hp : (w.nodes mc).parentMc with _ | p
      · unfold remove_movie_clip_with_bias at h1
        rw [if_pos hr, hp] at h1
        cases h1
        unfold remove_movie_clip_with_bias
        rw [if_pos hr, hp]
      · unfold remove_movie_clip_with_bias at h1
        rw [if_pos hr, hp] at h1
        cases h1
        have hnode : (removeChildFromAvm w mc).nodes mc
            = { w.nodes mc with parentMc := none } := by
          rw [removeChildFromAvm_nodes, if_pos rfl]
        unfold remove_movie_clip_with_bias
        rw [hnode]
        simp only []
        rw [if_pos hr]
    · unfold remove_movie_clip_with_bias at h1
      rw [if_neg hr] at h1
      cases h1
      unfold remove_movie_clip_with_bias
      rw [if_neg hr]

/-- A node attached to parent 1 at internal depth 5. -/
def remWorld : World :=
  { nodes := fun i =>
      if i = 0 then { testNode with depth := 5, parentMc := some 1 } else testNode
    nextId := 2 }

theorem c2_remove_movie_clip_witness :
    (remWorld.nodes 0).parentMc = some 1 ∧
    AVM_DEPTH_BIAS ≤ wrapI32 ((remWorld.nodes 0).depth + AVM_DEPTH_BIAS) ∧
    wrapI32 ((remWorld.nodes 0).depth + AVM_DEPTH_BIAS) < 2130706416 ∧
    remove_movie_clip_with_bias remWorld 0 AVM_DEPTH_BIAS
      = .ok .undefined (removeChildFromAvm remWorld 0) :=
  ⟨rfl, by decide, by decide,
   ((c2_remove_movie_clip remWorld 0 AVM_DEPTH_BIAS).1 1 rfl (by decide)
     (by decide)).1⟩

/-- Evaluation of the depth-resolution step on a non-number argument. -/
theorem swapDepthArg_nonNum (env : Env) (w : World) (parent : Nat) (v : Val)
    (hnn : ∀ q, v ≠ Val.num q) :
    swapDepthArg env w parent v =
      match env.resolveTarget v with
      | none => none
      | some (some target) =>
        match (w.nodes target).parentMc with
        | some targetParent =>
          if targetParent = parent then some (some ((w.nodes target).depth))
          else some none
        | none => some none
      | some none => some none := by
  cases v with
  | num q => exact absurd rfl (hnn q)
  | undefined => rfl
  | null => rfl
  | boolean b => rfl
  | str s => rfl
  | obj o => rfl

/-- Pointwise effect of `swapChildToDepth`. -/
theorem swapChildToDepth_nodes (w : World) (p c : Nat) (d : Int) (i : Nat) :
    (swapChildToDepth w p c d).nodes i =
      if i = c then { w.nodes c with depth := d }
      else if (w.nodes i).parentMc = some p ∧ (w.nodes i).depth = d then
        { w.nodes i with depth := (w.nodes c).depth }
      else w.nodes i := rfl

/-- C6 (amended): with a receiver that has a parent, (i) a target
resolving to a node that does not share that parent is a no-op; (ii) for
a numeric target, the swap takes effect exactly when the resolved depth
is in `[0, AVM_MAX_DEPTH]` and differs from the receiver current depth —
the receiver current depth itself is not range-checked; (iii) a
successful swap with a sibling exchanges exactly the two depths and
leaves every other node unchanged. -/
theorem c6_swap_depths (env : Env) (w : World) (mc : Nat) (args : List Val)
    (parent : Nat) (hpar : (w.nodes mc).parentMc = some parent) :
    (∀ t, (∀ q, args.getD 0 .undefined ≠ .num q) →
       env.resolveTarget (args.getD 0 .undefined) = some (some t) →
       (∀ tp, (w.nodes t).parentMc = some tp → tp ≠ parent) →
       swap_depths env w mc args = .ok .undefined w) ∧
    (∀ q d, args.getD 0 .undefined = .num q →
       d = wrapI32 (f64_to_wrapping_i32 q + AVM_DEPTH_BIAS) →
       ((d < 0 ∨ d > AVM_MAX_DEPTH) →
          swap_depths env w mc args = .ok .undefined w) ∧
       (¬(d < 0 ∨ d > AVM_MAX_DEPTH) → d = (w.nodes mc).depth →
          swap_depths env w mc args = .ok .undefined w) ∧
       (¬(d < 0 ∨ d > AVM_MAX_DEPTH) → d ≠ (w.nodes mc).depth →
          swap_depths env w mc args
            = .ok .undefined (swapChildToDepth w parent mc d))) ∧
    (∀ t, (∀ q, args.getD 0 .undefined ≠ .num q) →
       env.resolveTarget (args.getD 0 .undefined) = some (some t) →
       (w.nodes t).parentMc = some parent →
       (∀ i, (w.nodes i).parentMc = some parent →
          (w.nodes i).depth = (w.nodes t).depth → i = t) →
       ¬((w.nodes t).depth < 0 ∨ (w.nodes t).depth > AVM_MAX_DEPTH) →
       (w.nodes t).depth ≠ (w.nodes mc).depth →
       swap_depths env w mc args
         = .ok .undefined (swapChildToDepth w parent mc ((w.nodes t).depth)) ∧
       ((swapChildToDepth w parent mc ((w.nodes t).depth)).nodes mc).depth
         = (w.nodes t).depth ∧
       ((swapChildToDepth w parent mc ((w.nodes t).depth)).nodes t).depth
         = (w.nodes mc).depth ∧
       (∀ i, i ≠ mc → i ≠ t →
          (swapChildToDepth w parent mc ((w.nodes t).depth)).nodes i
            = w.nodes i)) := by
  refine ⟨?_, ?_, ?_⟩
  · intro t hnn hres hdiff
    unfold swap_depths
    rw [hpar]
    simp only []
    rw [swapDepthArg_nonNum env w parent _ hnn, hres]
    simp only []
    rcases htp : (w.nodes t).parentMc with _ | tp
    · rfl
    · simp [hdiff tp htp]
  · intro q d ha hd
    have harg : swapDepthArg env w parent (args.getD 0 .undefined)
        = some (some d) := by
      rw [ha, hd]; rfl
    refine ⟨?_, ?_, ?_⟩
    · intro hrange
      unfold swap_depths
      rw [hpar]
      simp only []
      rw [harg]
      simp only []
      rw [if_pos hrange]
    · intro hrange heq
      unfold swap_depths
      rw [hpar]
      simp only []
      rw [harg]
      simp only []
      rw [if_neg hrange, if_neg (by simpa using heq)]
    · intro hrange hne
      unfold swap_depths
      rw [hpar]
      simp only []
      rw [harg]
      simp only []
      rw [if_neg hrange, if_pos hne]
  · intro t hnn hres htp huniq hrange hne
    have htmc : t ≠ mc := by
      intro h
      exact hne (by rw [h])
    refine ⟨?_, ?_, ?_, ?_⟩
    · unfold swap_depths
      rw [hpar]
      simp only []
      rw [swapDepthArg_nonNum env w parent _ hnn, hres]
      simp [htp, hrange, hne]
    · rw [swapChildToDepth_nodes, if_pos rfl]
    · rw [swapChildToDepth_nodes, if_neg htmc, if_pos ⟨htp, rfl⟩]
    · intro i hmc hti
      rw [swapChildToDepth_nodes, if_neg hmc]
      have : ¬((w.nodes i).parentMc = some parent ∧
          (w.nodes i).depth = (w.nodes t).depth) := by
        rintro ⟨hip, hid⟩
        exact hti (huniq i hip hid)
      rw [if_neg this]

/-- A movie clip (node 0) with a parent, sitting at internal depth `-1`,
outside the valid dynamic range. -/
def swapWorld : World :=
  { nodes := fun i =>
      if i = 0 then { testNode with depth := -1, parentMc := some 1 } else testNode
    nextId := 2 }

/-- C6 counterexample: `swapDepths(-16384)` on a receiver whose current
internal depth is `-1` (outside `[0, AVM_MAX_DEPTH]`) still takes effect
— the receiver moves to depth 0 — refuting the requirement that both
depths lie in the valid dynamic range for the swap to take effect. -/
theorem c6_receiver_depth_cex :
    (swapWorld.nodes 0).depth = -1 ∧
    ¬(0 ≤ (swapWorld.nodes 0).depth ∧ (swapWorld.nodes 0).depth ≤ AVM_MAX_DEPTH) ∧
    swap_depths numEnv swapWorld 0 [Val.num (-16384)]
      = .ok .undefined (swapChildToDepth swapWorld 1 0 0) ∧
    ((swapChildToDepth swapWorld 1 0 0).nodes 0).depth = 0 :=
  ⟨rfl, by decide, rfl, rfl⟩

/-- A movie clip (node 0) with a parent, at internal depth 3. -/
def swapWorld2 : World :=
  { nodes := fun i =>
      if i = 0 then { testNode with depth := 3, parentMc := some 1 } else testNode
    nextId := 2 }

theorem c6_swap_depths_witness :
    (swapWorld2.nodes 0).parentMc = some 1 ∧
    ¬((4 : Int) < 0 ∨ (4 : Int) > AVM_MAX_DEPTH) ∧
    (4 : Int) ≠ (swapWorld2.nodes 0).depth ∧
    swap_depths numEnv swapWorld2 0 [Val.num (-16380)]
      = .ok .undefined (swapChildToDepth swapWorld2 1 0 4) :=
  ⟨rfl, by decide, by decide,
   (((c6_swap_depths numEnv swapWorld2 0 [Val.num (-16380)] 1 rfl).2.1
       (-16380) 4 rfl (by decide)).2.2 (by decide) (by decide))⟩

/-- `goto_frame` on a non-number argument takes the label branch. -/
theorem goto_frame_nonNum (env : Env) (w : World) (mc : Nat) (args : List Val)
    (stop : Bool) (so : Nat) (v : Val)
    (ha : args.getD 0 .undefined = v) (hnn : ∀ q, v ≠ Val.num q) :
    goto_frame env w mc args stop so = gotoLabelPath env w mc stop so v := by
  unfold goto_frame
  rw [ha]
  cases v with
  | num q => exact absurd rfl (hnn q)
  | undefined => rfl
  | null => rfl
  | boolean b => rfl
  | str s => rfl
  | obj o => rfl

/-- `goto_frame` on a number with nonzero fractional part takes the label
branch as well. -/
theorem goto_frame_fracNum (env : Env) (w : World) (mc : Nat) (args : List Val)
    (stop : Bool) (so : Nat) (q : ℚ)
    (ha : args.getD 0 .undefined = .num q) (hf : ratFract q ≠ 0) :
    goto_frame env w mc args stop so = gotoLabelPath env w mc stop so (.num q) := by
  unfold goto_frame
  rw [ha]
  simp only []
  rw [if_neg hf]

/-- Evaluation of the label branch under given coercion and label-table
results. -/
theorem gotoLabelPath_eval (env : Env) (w : World) (mc : Nat) (stop : Bool)
    (so : Nat) (v : Val) (s : String) (hs : env.toStr v = some s) :
    (frame_label_to_number (w.nodes mc) s = none →
       gotoLabelPath env w mc stop so v = .ok .undefined w) ∧
    (∀ f, frame_label_to_number (w.nodes mc) s = some f →
       gotoLabelPath env w mc stop so v
         = .ok .undefined (gotoFrameImpl w mc (wrapU16 (f + so)) stop)) := by
  constructor
  · intro hl
    unfold gotoLabelPath
    rw [hs]
    simp only []
    rw [hl]
  · intro f hl
    unfold gotoLabelPath
    rw [hs]
    simp only []
    rw [hl]

/-- C4 (amended): a number argument with zero fractional part is treated
as a 1-based frame, converted with wrapping i32 arithmetic (subtract 1,
add the scene offset), and the goto is performed only when the resulting
0-based value is non-negative; a number argument with nonzero fractional
part is NOT treated as a frame number — like any non-number argument it
is coerced to a string and resolved as a frame label, and an unresolved
label is a no-op. -/
theorem c4_goto_frame (env : Env) (w : World) (mc : Nat) (args : List Val)
    (stop : Bool) (so : Nat) :
    (∀ q f2, args.getD 0 .undefined = .num q → ratFract q = 0 →
       f2 = wrapI32 (wrapI32 (f64_to_wrapping_i32 q - 1) + so) →
       (f2 < 0 → goto_frame env w mc args stop so = .ok .undefined w) ∧
       (0 ≤ f2 → goto_frame env w mc args stop so
          = .ok .undefined (gotoFrameImpl w mc (i32_as_u16 (satAddI32 f2 1)) stop))) ∧
    (∀ q s, args.getD 0 .undefined = .num q → ratFract q ≠ 0 →
       env.toStr (.num q) = some s →
       (frame_label_to_number (w.nodes mc) s = none →
          goto_frame env w mc args stop so = .ok .undefined w) ∧
       (∀ f, frame_label_to_number (w.nodes mc) s = some f →
          goto_frame env w mc args stop so
            = .ok .undefined (gotoFrameImpl w mc (wrapU16 (f + so)) stop))) ∧
    (∀ v s, args.getD 0 .undefined = v → (∀ q, v ≠ .num q) →
       env.toStr v = some s → frame_label_to_number (w.nodes mc) s = none →
       goto_frame env w mc args stop so = .ok .undefined w) := by
  refine ⟨?_, ?_, ?_⟩
  · intro q f2 ha hf hf2
    constructor
    · intro hneg
      unfold goto_frame
      rw [ha]
      simp only []
      rw [if_pos hf, ← hf2, if_neg (by omega)]
    · intro hpos
      unfold goto_frame
      rw [ha]
      simp only []
      rw [if_pos hf, ← hf2, if_pos hpos]
  · intro q s ha hf hs
    rw [goto_frame_fracNum env w mc args stop so q ha hf]
    exact gotoLabelPath_eval env w mc stop so (.num q) s hs
  · intro v s ha hnn hs hl
    rw [goto_frame_nonNum env w mc args stop so v ha hnn]
    exact (gotoLabelPath_eval env w mc stop so v s hs).1 hl

/-- A coercion environment whose number-to-string coercion renders every
number as `"2.5"` — the correct AVM1 string form of the one number, `2.5`,
passed to it in the counterexample below. -/
def gotoEnv : Env :=
  { numEnv with
    toStr := fun v =>
      match v with
      | .str s => some s
      | .num _ => some "2.5"
      | _ => none }

/-- A clip whose label table maps the label `"2.5"` to frame 3, with the
cursor on frame 1. -/
def gotoWorld : World :=
  { nodes := fun _ => { testNode with labels := [("2.5", 3)] }, nextId := 1 }

/-- C4 counterexample: `goto(2.5)` — a number with nonzero fractional
part — is not a no-op: it is resolved as the frame label `"2.5"`, which
exists here, and the cursor moves from frame 1 to frame 3. -/
theorem c4_goto_fractional_cex :
    ratFract ((5 : ℚ) / 2) ≠ 0 ∧
    goto_frame gotoEnv gotoWorld 0 [Val.num (5 / 2)] true 0
      = .ok .undefined (gotoFrameImpl gotoWorld 0 3 true) ∧
    ((gotoFrameImpl gotoWorld 0 3 true).nodes 0).cursor = 3 ∧
    (gotoWorld.nodes 0).cursor = 1 := by
  have hf : ratFract ((5 : ℚ) / 2) ≠ 0 := by norm_num [ratFract, ratTrunc]
  refine ⟨hf, ?_, rfl, rfl⟩
  rw [goto_frame_fracNum gotoEnv gotoWorld 0 [Val.num (5 / 2)] true 0 (5 / 2) rfl hf]
  exact (gotoLabelPath_eval gotoEnv gotoWorld 0 true 0 (.num (5 / 2)) "2.5" rfl).2 3 rfl

theorem c4_goto_frame_witness :
    ratFract ((7 : ℚ)) = 0 ∧
    (0 : Int) ≤ wrapI32 (wrapI32 (f64_to_wrapping_i32 7 - 1) + 0) ∧
    goto_frame numEnv testWorld 0 [Val.num 7] false 0
      = .ok .undefined (gotoFrameImpl testWorld 0
          (i32_as_u16 (satAddI32 (wrapI32 (wrapI32 (f64_to_wrapping_i32 7 - 1) + 0)) 1))
          false) :=
  ⟨by norm_num [ratFract, ratTrunc], by decide,
   ((c4_goto_frame numEnv testWorld 0 [Val.num 7] false 0).1 7
      (wrapI32 (wrapI32 (f64_to_wrapping_i32 7 - 1) + 0)) rfl
      (by norm_num [ratFract, ratTrunc]) rfl).2
     (by decide)⟩

/-- C5 (amended): `begin_gradient_fill` with all five required arguments
present but colors/alphas/ratios arrays of unequal lengths logs a warning
and returns undefined with the world — in particular the fill style —
completely unchanged (not cleared). -/
theorem c5_gradient_unequal (env : Env) (w : World) (mc : Nat)
    (args : List Val) (m c a r x : Val) (method : String)
    (h0 : args.get? 0 = some m) (h1 : args.get? 1 = some c)
    (h2 : args.get? 2 = some a) (h3 : args.get? 3 = some r)
    (h4 : args.get? 4 = some x)
    (hm : env.toStr m = some method)
    (hne : (env.arrayOf (env.toObj c)).length ≠ (env.arrayOf (env.toObj a)).length ∨
           (env.arrayOf (env.toObj c)).length ≠ (env.arrayOf (env.toObj r)).length) :
    begin_gradient_fill env w mc args = .ok .undefined w := by
  unfold begin_gradient_fill
  rw [h0, h1, h2, h3, h4]
  simp only []
  rw [hm]
  simp only []
  rw [if_pos hne]

/-- An environment whose object-array oracle returns arrays of unequal
lengths for the handles used below. -/
def gradEnv : Env :=
  { numEnv with
    arrayOf := fun i =>
      if i = 1 then [Val.num 0, Val.num 1]
      else if i = 2 then [Val.num 0]
      else if i = 3 then [Val.num 0]
      else [] }

/-- A clip that already has a solid fill style set. -/
def gradWorld : World :=
  { nodes := fun _ => { testNode with fillStyle := some (.color ⟨0, 255⟩) }
    nextId := 1 }

/-- C5 counterexample: on unequal colors/alphas arrays the call returns
undefined, but the previously set fill style is still present — it is not
left cleared (none). -/
theorem c5_unequal_arrays_cex :
    (gradEnv.arrayOf 1).length ≠ (gradEnv.arrayOf 2).length ∧
    begin_gradient_fill gradEnv gradWorld 0
      [Val.str "linear", Val.obj 1, Val.obj 2, Val.obj 3, Val.obj 4]
      = .ok .undefined gradWorld ∧
    (gradWorld.nodes 0).fillStyle = some (.color ⟨0, 255⟩) :=
  ⟨by decide, rfl, rfl⟩

theorem c5_gradient_unequal_witness :
    gradEnv.toStr (Val.str "linear") = some "linear" ∧
    (gradEnv.arrayOf 1).length ≠ (gradEnv.arrayOf 2).length ∧
    begin_gradient_fill gradEnv gradWorld 0
      [Val.str "linear", Val.obj 1, Val.obj 2, Val.obj 3, Val.obj 4]
      = .ok .undefined gradWorld :=
  ⟨rfl, by decide,
   c5_gradient_unequal gradEnv gradWorld 0
     [Val.str "linear", Val.obj 1, Val.obj 2, Val.obj 3, Val.obj 4]
     (Val.str "linear") (Val.obj 1) (Val.obj 2) (Val.obj 3) (Val.obj 4)
     "linear" rfl rfl rfl rfl rfl rfl (Or.inl (by decide))⟩

/-- Pointwise effect of `addChildFromAvm`. -/
theorem addChildFromAvm_nodes (w : World) (p c : Nat) (d : Int) (i : Nat) :
    (addChildFromAvm w p c d).nodes i =
      if i = c then { w.nodes c with parentMc := some p, depth := d }
      else if (w.nodes i).parentMc = some p ∧ (w.nodes i).depth = d then
        { w.nodes i with parentMc := none }
      else w.nodes i := rfl

/-- Pointwise effect of `updateNode`. -/
theorem updateNode_nodes (w : World) (n : Nat) (f : NodeData → NodeData) (i : Nat) :
    (updateNode w n f).nodes i = if i = n then f (w.nodes i) else w.nodes i := rfl

/-- Pointwise effect of `allocNode`. -/
theorem allocNode_nodes (w : World) (tmpl : NodeData) (i : Nat) :
    (allocNode w tmpl).nodes i = if i = w.nextId then tmpl else w.nodes i := rfl

/-! Projection lemmas for the duplication pipeline. -/

theorem runFrame_matrix (wa : World) (n : Nat) :
    ((runFrame wa n).nodes n).matrix = (wa.nodes n).matrix := by
  unfold runFrame
  rw [updateNode_nodes, if_pos rfl]

theorem runFrame_colorXform (wa : World) (n : Nat) :
    ((runFrame wa n).nodes n).colorXform = (wa.nodes n).colorXform := by
  unfold runFrame
  rw [updateNode_nodes, if_pos rfl]

theorem runFrame_props (wa : World) (n : Nat) :
    ((runFrame wa n).nodes n).props = (wa.nodes n).props := by
  unfold runFrame
  rw [updateNode_nodes, if_pos rfl]

theorem postInst_matrix (env : Env) (wa : World) (n : Nat) (io : Option Nat) :
    ((postInstantiation env wa n io).nodes n).matrix = (wa.nodes n).matrix := by
  cases io with
  | none => rfl
  | some o =>
    unfold postInstantiation
    rw [updateNode_nodes, if_pos rfl]

theorem postInst_colorXform (env : Env) (wa : World) (n : Nat) (io : Option Nat) :
    ((postInstantiation env wa n io).nodes n).colorXform
      = (wa.nodes n).colorXform := by
  cases io with
  | none => rfl
  | some o =>
    unfold postInstantiation
    rw [updateNode_nodes, if_pos rfl]

theorem postInst_props (env : Env) (wa : World) (n : Nat) (io : Option Nat) :
    ((postInstantiation env wa n io).nodes n).props
      = (wa.nodes n).props ++
          (match io with | some o => env.objProps o | none => []) := by
  cases io with
  | none => simp [postInstantiation]
  | some o =>
    unfold postInstantiation
    rw [updateNode_nodes, if_pos rfl]

theorem setColorXform_matrix (wa : World) (n : Nat) (c : Int) :
    ((setColorXform wa n c).nodes n).matrix = (wa.nodes n).matrix := by
  unfold setColorXform
  rw [updateNode_nodes, if_pos rfl]

theorem setColorXform_colorXform (wa : World) (n : Nat) (c : Int) :
    ((setColorXform wa n c).nodes n).colorXform = c := by
  unfold setColorXform
  rw [updateNode_nodes, if_pos rfl]

theorem setColorXform_props (wa : World) (n : Nat) (c : Int) :
    ((setColorXform wa n c).nodes n).props = (wa.nodes n).props := by
  unfold setColorXform
  rw [updateNode_nodes, if_pos rfl]

theorem setMatrix_matrix (wa : World) (n : Nat) (m : Int) :
    ((setMatrix wa n m).nodes n).matrix = m := by
  unfold setMatrix
  rw [updateNode_nodes, if_pos rfl]

theorem setMatrix_props (wa : World) (n : Nat) (m : Int) :
    ((setMatrix wa n m).nodes n).props = (wa.nodes n).props := by
  unfold setMatrix
  rw [updateNode_nodes, if_pos rfl]

theorem setMatrix_nodes_ne (wa : World) (n : Nat) (m : Int) (i : Nat) (h : i ≠ n) :
    (setMatrix wa n m).nodes i = wa.nodes i := by
  unfold setMatrix
  rw [updateNode_nodes, if_neg h]

theorem addChild_self_props (wa : World) (p c : Nat) (d : Int) :
    ((addChildFromAvm wa p c d).nodes c).props = (wa.nodes c).props := by
  rw [addChildFromAvm_nodes, if_pos rfl]

theorem addChild_ne_matrix (wa : World) (p c : Nat) (d : Int) (i : Nat) (h : i ≠ c) :
    ((addChildFromAvm wa p c d).nodes i).matrix = (wa.nodes i).matrix := by
  rw [addChildFromAvm_nodes, if_neg h]
  split
  · rfl
  · rfl

theorem addChild_ne_colorXform (wa : World) (p c : Nat) (d : Int) (i : Nat)
    (h : i ≠ c) :
    ((addChildFromAvm wa p c d).nodes i).colorXform = (wa.nodes i).colorXform := by
  rw [addChildFromAvm_nodes, if_neg h]
  split
  · rfl
  · rfl

/-- C7: duplicating a clip with no parent is a no-op returning undefined
(the root cannot be duplicated); on success, the new node matrix and
colour transform equal the source node values at the instant of
duplication, and the new node ScriptObject properties come only from the
template and the optional init object — nothing is copied from the
source node properties. -/
theorem c7_duplicate (env : Env) (w : World) (mc : Nat) (args : List Val)
    (bias : Int) (nm : String) (dq : ℚ)
    (hlen : 2 ≤ args.length)
    (h0 : env.toStr (args.getD 0 .undefined) = some nm)
    (h1 : env.toF64 (args.getD 1 .undefined) = some dq) :
    ((w.nodes mc).parentMc = none →
       duplicate_movie_clip_with_bias env w mc args bias = .ok .undefined w) ∧
    (∀ parent tmpl d, (w.nodes mc).parentMc = some parent →
       d = wrapI32 (f64_to_wrapping_i32 dq + bias) →
       ¬(d < 0 ∨ d > AVM_MAX_DEPTH) →
       env.idTemplate ((w.nodes mc).contentId) = some tmpl →
       w.nextId ≠ mc →
       duplicate_movie_clip_with_bias env w mc args bias
         = .ok (.obj w.nextId)
             (dupResult env w mc parent tmpl nm d ((args.get? 2).map env.toObj)) ∧
       ((dupResult env w mc parent tmpl nm d ((args.get? 2).map env.toObj)).nodes
           w.nextId).matrix = (w.nodes mc).matrix ∧
       ((dupResult env w mc parent tmpl nm d ((args.get? 2).map env.toObj)).nodes
           w.nextId).colorXform = (w.nodes mc).colorXform ∧
       ((dupResult env w mc parent tmpl nm d ((args.get? 2).map env.toObj)).nodes
           w.nextId).props
         = tmpl.props ++ (match (args.get? 2).map env.toObj with
                          | some o => env.objProps o
                          | none => [])) := by
  have hcoerce : coerceToI32 env (args.getD 1 .undefined)
      = some (f64_to_wrapping_i32 dq) := by
    unfold coerceToI32
    rw [h1]
    rfl
  constructor
  · intro hpar
    unfold duplicate_movie_clip_with_bias
    rw [if_neg (by omega), h0, hcoerce]
    simp only []
    rw [hpar]
  · intro parent tmpl d hpar hd hrange htmpl hne
    have hmcne : mc ≠ w.nextId := fun h => hne h.symm
    have hw1mc : (allocNode w { tmpl with name := nm }).nodes mc = w.nodes mc := by
      rw [allocNode_nodes, if_neg hmcne]
    refine ⟨?_, ?_, ?_, ?_⟩
    · unfold duplicate_movie_clip_with_bias
      rw [if_neg (by omega), h0, hcoerce]
      simp only []
      rw [hpar]
      simp only []
      rw [← hd, if_neg hrange, htmpl]
    · unfold dupResult
      simp only []
      rw [runFrame_matrix, postInst_matrix, setColorXform_matrix, setMatrix_matrix,
          addChild_ne_matrix _ _ _ _ _ hmcne, hw1mc]
    · unfold dupResult
      simp only []
      rw [runFrame_colorXform, postInst_colorXform, setColorXform_colorXform,
          setMatrix_nodes_ne _ _ _ _ hmcne, addChild_ne_colorXform _ _ _ _ _ hmcne,
          hw1mc]
    · unfold dupResult
      simp only []
      rw [runFrame_props, postInst_props, setColorXform_props, setMatrix_props,
          addChild_self_props, allocNode_nodes, if_pos rfl]

/-- An environment whose library can instantiate any content id as a
default node. -/
def dupEnv : Env :=
  { numEnv with idTemplate := fun _ => some testNode }

/-- A source clip (node 0) with a parent, a distinctive matrix and colour
transform, and a ScriptObject property that must not be copied. -/
def dupWorld : World :=
  { nodes := fun i =>
      if i = 0 then
        { testNode with parentMc := some 1, matrix := 7, colorXform := 9,
                        props := [("secret", Val.num 1)] }
      else testNode
    nextId := 2 }

theorem c7_duplicate_witness :
    (dupWorld.nodes 0).parentMc = some 1 ∧
    ¬(wrapI32 (f64_to_wrapping_i32 0 + AVM_DEPTH_BIAS) < 0 ∨
      wrapI32 (f64_to_wrapping_i32 0 + AVM_DEPTH_BIAS) > AVM_MAX_DEPTH) ∧
    dupEnv.idTemplate ((dupWorld.nodes 0).contentId) = some testNode ∧
    ((dupResult dupEnv dupWorld 0 1 testNode "copy"
        (wrapI32 (f64_to_wrapping_i32 0 + AVM_DEPTH_BIAS))
        (([Val.str "copy", Val.num 0].get? 2).map dupEnv.toObj)).nodes
        dupWorld.nextId).matrix = (dupWorld.nodes 0).matrix :=
  ⟨rfl, by decide, rfl,
   ((c7_duplicate dupEnv dupWorld 0 [Val.str "copy", Val.num 0] AVM_DEPTH_BIAS
       "copy" 0 (by decide) rfl rfl).2 1 testNode
       (wrapI32 (f64_to_wrapping_i32 0 + AVM_DEPTH_BIAS)) rfl rfl (by decide) rfl
       (by decide)).2.1⟩

/-- C9: in `line_style` and `begin_fill` every numeric argument is
clamped to its legacy range before use — the line width to `[0, 255]`
pixels before twips conversion, the alpha percentage to `[0, 100]` then
scaled to a byte as `pct/100*255` truncated, the gradient ratio to
`[0, 255]` and the miter limit to `[0, 255]` — and an absent colour
argument yields colour 0 with full alpha 255 while absent cap and join
strings default to round. -/
theorem c9_style_clamps (env : Env) (w : World) (mc : Nat)
    (wv rgbV aV jv lv cV rV : Val) (q rq av l cq rv2 : ℚ)
    (hw : env.toF64 wv = some q)
    (hrgb : env.toF64 rgbV = some rq)
    (ha : env.toF64 aV = some av)
    (hj : env.toStr jv = some "miter")
    (hl : env.toF64 lv = some l)
    (hc : env.toF64 cV = some cq)
    (hr : env.toF64 rV = some rv2)
    (hu1 : env.toStr Val.undefined = none)
    (hu2 : env.asBool Val.undefined = false) :
    line_style env w mc [wv, rgbV, aV]
      = .ok .undefined (setLineStyle w mc (some
          { width := twipsFromPixels (max (min q 255) 0)
            color := Color.fromRgb (f64_to_wrapping_u32 rq)
                       (f64_as_u8 (max (min av 100) 0 / 100 * 255))
            startCap := .round, endCap := .round, joinStyle := .round
            fillOfLine := none, allowScaleX := false, allowScaleY := false
            isPixelHinted := false, allowClose := false })) ∧
    line_style env w mc [wv]
      = .ok .undefined (setLineStyle w mc (some
          { width := twipsFromPixels (max (min q 255) 0)
            color := Color.fromRgb 0 255
            startCap := .round, endCap := .round, joinStyle := .round
            fillOfLine := none, allowScaleX := false, allowScaleY := false
            isPixelHinted := false, allowClose := false })) ∧
    line_style env w mc [wv, rgbV, aV, .undefined, .undefined, .undefined, jv, lv]
      = .ok .undefined (setLineStyle w mc (some
          { width := twipsFromPixels (max (min q 255) 0)
            color := Color.fromRgb (f64_to_wrapping_u32 rq)
                       (f64_as_u8 (max (min av 100) 0 / 100 * 255))
            startCap := .round, endCap := .round
            joinStyle := .miter (min (max l 0) 255)
            fillOfLine := none, allowScaleX := false, allowScaleY := false
            isPixelHinted := false, allowClose := false })) ∧
    begin_fill env w mc [rgbV, aV]
      = .ok .undefined (setFillStyle w mc (some (.color
          (Color.fromRgb (f64_to_wrapping_u32 rq)
            (f64_as_u8 (max (min av 100) 0 / 100 * 255)))))) ∧
    buildRecords env [cV] [aV] [rV]
      = some [⟨f64_as_u8 (max (min rv2 255) 0),
              Color.fromRgb (f64_to_wrapping_u32 cq)
                (f64_as_u8 (max (min av 100) 0 / 100 * 255))⟩] := by
  refine ⟨?_, ?_, ?_, ?_, ?_⟩
  · unfold line_style
    simp only [List.get?]
    rw [hw]
    simp only []
    unfold coerceToU32
    rw [hrgb]
    simp only [Option.map]
    rw [ha]
    simp only [Option.map]
    unfold lineStyleRest
    simp only [List.get?, Option.bind, Option.elim]
  · unfold line_style
    simp only [List.get?]
    rw [hw]
    simp only []
    unfold lineStyleRest
    simp only [List.get?, Option.bind, Option.elim]
  · unfold line_style
    simp only [List.get?]
    rw [hw]
    simp only []
    unfold coerceToU32
    rw [hrgb]
    simp only [Option.map]
    rw [ha]
    simp only [Option.map]
    unfold lineStyleRest
    simp only [List.get?, Option.bind, Option.elim]
    rw [hu1, hu2, hj]
    simp only []
    rw [hl]
  · unfold begin_fill
    simp only [List.get?]
    unfold coerceToU32
    rw [hrgb]
    simp only [Option.map]
    rw [ha]
  · unfold buildRecords
    rw [hr]
    simp only [Option.bind_eq_bind, Option.some_bind]
    unfold coerceToU32
    rw [hc]
    simp only [Option.map, Option.some_bind]
    rw [ha]
    simp only [Option.some_bind]
    unfold buildRecords
    simp only [Option.some_bind]
    rfl

theorem c9_style_clamps_witness :
    numEnv.toF64 (Val.num 300) = some 300 ∧
    numEnv.toStr (Val.str "miter") = some "miter" ∧
    line_style numEnv testWorld 0 [Val.num 300, Val.num 1193046, Val.num 50]
      = .ok .undefined (setLineStyle testWorld 0 (some
          { width := twipsFromPixels (max (min (300 : ℚ) 255) 0)
            color := Color.fromRgb (f64_to_wrapping_u32 1193046)
                       (f64_as_u8 (max (min (50 : ℚ) 100) 0 / 100 * 255))
            startCap := .round, endCap := .round, joinStyle := .round
            fillOfLine := none, allowScaleX := false, allowScaleY := false
            isPixelHinted := false, allowClose := false })) :=
  ⟨rfl, rfl,
   (c9_style_clamps numEnv testWorld 0 (Val.num 300) (Val.num 1193046)
      (Val.num 50) (Val.str "miter") (Val.num 500) (Val.num 16711680)
      (Val.num 321) 300 1193046 50 500 16711680 321
      rfl rfl rfl rfl rfl rfl rfl rfl rfl).1⟩

end Ruffle
